import Mathlib

/-!
Verification development for the MCP tool-gateway server (src/server.py).

We give a shallow embedding of the Python code into Lean:
Python values are modelled by `PyVal`, Python exceptions by `PyErr`,
fallible Python code by `Except PyErr _`, the process environment and the
external backends by explicit parameters.  Python string methods
(`str.strip`, `str.lower`, `str.startswith`, character slicing) are
modelled by structurally recursive functions over the character list of
the string, matching the Python semantics on the ASCII data that occurs
in this server.
-/

/-- A Python runtime value, restricted to the shapes that occur in the
server code: `None`, booleans, integers, strings, lists, dicts with string
keys, and typed SDK objects carrying named attributes. -/
inductive PyVal where
  | none
  | bool (b : Bool)
  | int (n : Int)
  | str (s : String)
  | list (xs : List PyVal)
  | dict (kvs : List (String × PyVal))
  | obj (attrs : List (String × PyVal))

/-- A Python exception, by class and message (`str(e)` is the message). -/
inductive PyErr where
  | valueError (msg : String)
  | runtimeError (msg : String)
  | attributeError (msg : String)
  | typeError (msg : String)
  | httpStatusError (status : Nat)
deriving Repr, DecidableEq

/-- The text `str(e)` of a Python exception in our model. -/
def pyErrStr : PyErr → String
  | .valueError m => m
  | .runtimeError m => m
  | .attributeError m => m
  | .typeError m => m
  | .httpStatusError s => "HTTP status error " ++ toString s

/-- Drop leading whitespace characters from a character list. -/
def dropLeadingWs : List Char → List Char
  | [] => []
  | c :: rest => if c.isWhitespace then dropLeadingWs rest else c :: rest

/-- Model of Python `str.strip()`: remove whitespace from both ends. -/
def pystrip (s : String) : String :=
  String.mk ((dropLeadingWs ((dropLeadingWs s.data).reverse)).reverse)

/-- Lower-case one ASCII character, the model of what `str.lower()` does
to each character of the header values occurring here. -/
def pyLowerChar (c : Char) : Char :=
  if 'A' ≤ c ∧ c ≤ 'Z' then Char.ofNat (c.toNat + 32) else c

/-- Model of Python `str.lower()`. -/
def pyLower (s : String) : String :=
  String.mk (s.data.map pyLowerChar)

/-- Whether the second list starts with the first list. -/
def startsWithChars : List Char → List Char → Bool
  | [], _ => true
  | _ :: _, [] => false
  | p :: ps, c :: cs => (p = c) && startsWithChars ps cs

/-- Model of Python `s.startswith(pat)`. -/
def pyStartsWith (s pat : String) : Bool :=
  startsWithChars pat.data s.data

/-- Model of Python character slicing `s[n:]`. -/
def pyDropChars (n : Nat) (s : String) : String :=
  String.mk (s.data.drop n)

/-- Association-list lookup: the model of a Python dict lookup
(dict keys are unique, so first match is the match). -/
def alookup (kvs : List (String × PyVal)) (k : String) : Option PyVal :=
  match kvs with
  | [] => Option.none
  | (k2, v) :: rest => if k2 = k then some v else alookup rest k

/-- String-valued association-list lookup, the model of
`headers.get(name)` on the header mapping. -/
def slookup (kvs : List (String × String)) (k : String) : Option String :=
  match kvs with
  | [] => Option.none
  | (k2, v) :: rest => if k2 = k then some v else slookup rest k

/-- Python truthiness of an optional environment string:
`None` and the empty string are falsy. -/
def envTruthy : Option String → Bool
  | Option.none => false
  | some s => !(s == "")

/-- Python `a or b` on two str-or-None values: the first operand when it
is truthy (a non-empty string), otherwise the second operand verbatim. -/
def pyOrStr : Option String → Option String → Option String
  | some a, b => if a = "" then b else some a
  | Option.none, b => b

/-- The bearer branch of `_extract_api_key` (src/server.py lines 32-35):
`auth = headers.get("authorization", "")`; when `auth.lower()` starts with
the seven characters of "bearer " return `auth[7:].strip()`, else `None`. -/
def bearerFallback (headers : List (String × String)) : Option String :=
  let auth := (slookup headers "authorization").getD ""
  if pyStartsWith (pyLower auth) "bearer " then some (pystrip (pyDropChars 7 auth))
  else Option.none

/-- Embedding of `_extract_api_key` (src/server.py lines 22-35), as a
function of the current request headers returned by `get_http_headers()`.
`if not headers: return None`; then
`h = headers.get("x-platform-api-key") or headers.get("X-Platform-API-Key")`;
`if h: return h.strip()`; otherwise fall back to the authorization header. -/
def extract_api_key (headers : List (String × String)) : Option String :=
  if headers.isEmpty then Option.none
  else
    match pyOrStr (slookup headers "x-platform-api-key")
        (slookup headers "X-Platform-API-Key") with
    | some h => if h = "" then bearerFallback headers else some (pystrip h)
    | Option.none => bearerFallback headers

/-! ## Web-search adapter: `research_company_with_tavily` -/

/-- The request payload built at src/server.py lines 84-97 and POSTed to
the Tavily search endpoint. -/
structure TavilyPayload where
  api_key : String
  query : String
  max_results : Nat
  search_depth : String
  include_domains : List String
  include_answer : Bool
  include_raw_content : Bool
deriving Repr, DecidableEq

/-- The query f-string of src/server.py lines 79-82: the two adjacent
literals concatenate, so the text is one string with the company name and
the site constraint interpolated. -/
def tavilyQuery (company_name website_url : String) : String :=
  "Products, Services, Team, News, Key customers, FAQ, Pricing of " ++
    company_name ++ " - site:" ++ website_url

/-- The payload dict of src/server.py lines 84-97. -/
def tavilyPayload (apiKey company_name website_url : String) : TavilyPayload :=
  { api_key := apiKey
    query := tavilyQuery company_name website_url
    max_results := 5
    search_depth := "advanced"
    include_domains := [website_url]
    include_answer := true
    include_raw_content := false }

/-- An HTTP response as the adapter sees it: a status code and the parsed
JSON body that `resp.json()` yields. -/
structure HttpResponse where
  status : Nat
  body : PyVal

/-- Embedding of the tool `research_company_with_tavily` (src/server.py
lines 66-109).  `envKey` is `os.environ.get("TAVILY_API_KEY")`; `backend`
is the HTTP POST of the payload to the Tavily endpoint, which either
raises (transport failure) or yields a response.  The code raises
`ValueError` when the key is unset or empty, calls
`resp.raise_for_status()` which raises on any non-2xx status (per the
comment at line 101), and otherwise returns the parsed JSON body
verbatim.  The optional `ctx.info` breadcrumb at lines 106-107 is a pure
log side effect and is not modelled. -/
def research_company_with_tavily (envKey : Option String)
    (company_name website_url : String)
    (backend : TavilyPayload → Except PyErr HttpResponse) :
    Except PyErr PyVal :=
  if envTruthy envKey = false then
    .error (.valueError "Missing TAVILY_API_KEY environment variable on the server.")
  else
    match backend (tavilyPayload (envKey.getD "") company_name website_url) with
    | .error e => .error e
    | .ok resp =>
      if 200 ≤ resp.status ∧ resp.status < 300 then .ok resp.body
      else .error (.httpStatusError resp.status)

/-! ## Vector-search adapter: `pinecone_search` -/

/-- The environment variables read at src/server.py lines 127-129. -/
structure PineconeEnv where
  api_key : Option String
  index_name : Option String
  index_host : Option String

/-- The `search_kwargs` of src/server.py lines 163-169: the nested query
(top 5, text input) and the requested record-field list. -/
structure PineconeSearchKwargs where
  topK : Nat
  inputText : String
  fields : List String
deriving Repr, DecidableEq

/-- The fixed field list requested from the backend
(src/server.py line 168). -/
def pineconeRequestedFields : List String :=
  ["text", "Tag", "Type", "RecordId", "UserId", "TimeStamp"]

/-- Builds the `search_kwargs` of src/server.py lines 163-169. -/
def pineconeSearchKwargs (query : String) : PineconeSearchKwargs :=
  { topK := 5, inputText := query, fields := pineconeRequestedFields }

/-- Model of `getattr(v, name, default)` for the attribute names probed by
the normalization code ("result", "hits", "fields"): only a typed SDK
object carries such attributes; every other value falls to the default. -/
def pyGetattrD (v : PyVal) (name : String) (d : PyVal) : PyVal :=
  match v with
  | .obj attrs => (alookup attrs name).getD d
  | _ => d

/-- The hit-list extraction of src/server.py lines 197-201:
`result.get("result", {}).get("hits", [])` when `result` is a dict —
where the inner `.get` raises `AttributeError` when the "result" entry is
neither the dict default nor a dict (only dicts have a `get` method in
the shapes modelled here) — and
`getattr(getattr(result, "result", {}), "hits", [])` otherwise. -/
def pineconeHits (result : PyVal) : Except PyErr PyVal :=
  match result with
  | .dict kvs =>
    match (alookup kvs "result").getD (.dict []) with
    | .dict inner => .ok ((alookup inner "hits").getD (.list []))
    | _ => .error (.attributeError "object has no attribute get")
  | _ => .ok (pyGetattrD (pyGetattrD result "result" (.dict [])) "hits" (.list []))

/-- Model of Python iteration `for h in hits`: lists yield their elements,
strings their characters, dicts their keys; other values raise
`TypeError`. -/
def pyIter : PyVal → Except PyErr (List PyVal)
  | .list xs => .ok xs
  | .str s => .ok (s.data.map (fun c => .str (String.mk [c])))
  | .dict kvs => .ok (kvs.map (fun kv => .str kv.1))
  | _ => .error (.typeError "object is not iterable")

/-- The `fields` value of one hit (src/server.py line 203):
`h.get("fields", {})` when the hit is a dict, else
`getattr(h, "fields", {})`. -/
def hitFieldsVal (h : PyVal) : PyVal :=
  match h with
  | .dict kvs => (alookup kvs "fields").getD (.dict [])
  | _ => pyGetattrD h "fields" (.dict [])

/-- The loop body of src/server.py lines 202-206 for one hit:
`txt = fields.get("text")` — raising `AttributeError` when `fields` is
not a dict — then the text is kept only when `isinstance(txt, str)`. -/
def hitText (h : PyVal) : Except PyErr (Option String) :=
  match hitFieldsVal h with
  | .dict fkvs =>
    match alookup fkvs "text" with
    | some (.str t) => .ok (some t)
    | _ => .ok Option.none
  | _ => .error (.attributeError "object has no attribute get")

/-- The `for h in hits` loop of src/server.py lines 202-206, threading the
`matches` accumulator: an exception in the loop body aborts the loop, and
the Python list keeps the entries appended before the abort.  Returns the
matches produced and whether the loop raised. -/
def collectMatches : List PyVal → List String × Bool
  | [] => ([], false)
  | h :: rest =>
    match hitText h with
    | .error _ => ([], true)
    | .ok Option.none => collectMatches rest
    | .ok (some t) =>
      let r := collectMatches rest
      (t :: r.1, r.2)

/-- The whole `try` block of src/server.py lines 195-209: extract the hit
list, iterate it, collect texts; any raise ends the block with the
matches collected so far.  Returns the matches and whether the block
raised (the raise itself is swallowed by `except Exception: pass`). -/
def pineconeTryNormalize (result : PyVal) : List String × Bool :=
  match pineconeHits result with
  | .error _ => ([], true)
  | .ok hits =>
    match pyIter hits with
    | .error _ => ([], true)
    | .ok hlist => collectMatches hlist

/-- The `matches` list the tool returns for a given raw backend result. -/
def pineconeNormalize (result : PyVal) : List String :=
  (pineconeTryNormalize result).1

/-- Whether the normalization block raised (and was silently caught). -/
def pineconeNormalizeRaised (result : PyVal) : Bool :=
  (pineconeTryNormalize result).2

/-- The failure dict built at src/server.py lines 187-191. -/
def pineconeErrorDict (e : PyErr) : PyVal :=
  .dict [("success", .bool false), ("error", .str "pinecone_search_failed"),
    ("message", .str (pyErrStr e))]

/-- The success dict built at src/server.py lines 211-215. -/
def pineconeSuccessDict (result : PyVal) : PyVal :=
  .dict [("success", .bool true),
    ("matches", .list ((pineconeNormalize result).map .str)),
    ("raw", result)]

/-- Embedding of the tool `pinecone_search` (src/server.py lines 114-215).
`env` models the three environment reads; `sdkAvailable` models whether
`from pinecone import Pinecone` succeeds (lines 141-146; on failure the
code raises `RuntimeError`, outside any handler); `backend` models the
whole `_search_sync` call run via `asyncio.to_thread` (lines 149-184),
receiving the namespace `UserId.strip()` and the search kwargs and either
raising or yielding the raw SDK result.  Validation (lines 131-138)
raises `ValueError` before the import and before any backend call.  Only
the backend call is guarded (lines 183-191); its exceptions become the
failure dict.  The normalization block (lines 193-209) never raises out,
and the success dict (lines 211-215) carries the full raw result. -/
def pinecone_search (env : PineconeEnv) (sdkAvailable : Bool)
    (UserId query : String)
    (backend : String → PineconeSearchKwargs → Except PyErr PyVal) :
    Except PyErr PyVal :=
  if envTruthy env.api_key = false then
    .error (.valueError "Missing PINECONE_API_KEY in environment.")
  else if envTruthy env.index_name = false then
    .error (.valueError "Missing PINECONE_INDEX_NAME in environment.")
  else if UserId = "" ∨ pystrip UserId = "" then
    .error (.valueError "UserId is required.")
  else if query = "" ∨ pystrip query = "" then
    .error (.valueError "query is required.")
  else if sdkAvailable = false then
    .error (.runtimeError "Pinecone SDK not available. Ensure pinecone is in fastmcp.json dependencies.")
  else
    match backend (pystrip UserId) (pineconeSearchKwargs query) with
    | .error e => .ok (pineconeErrorDict e)
    | .ok result => .ok (pineconeSuccessDict result)

/-! ## Observation helpers and spec-side comparison definitions -/

/-- Lookup of a key in a returned dict value (absent on non-dicts). -/
def dictGetKey (v : PyVal) (k : String) : Option PyVal :=
  match v with
  | .dict kvs => alookup kvs k
  | _ => Option.none

/-- Whether a returned dict value carries the given key. -/
def dictHasKey (v : PyVal) (k : String) : Bool :=
  (dictGetKey v k).isSome

/-- The boolean `success` field of a returned value, when it has one. -/
def dictSuccessBool (v : PyVal) : Option Bool :=
  match dictGetKey v "success" with
  | some (.bool b) => some b
  | _ => Option.none

/-- Modelled from the spec (section 3, NormalizedResult): a returned value
satisfies the NormalizedResult invariant when it has a boolean `success`
field, `success == false` holds iff an `error` field is present, and a
`matches` field is present whenever `success == true`.  This definition
follows the spec words and is compared with what the source returns. -/
def specNormalizedInvariant (v : PyVal) : Bool :=
  match dictSuccessBool v with
  | some b => (b == !(dictHasKey v "error")) && (!b || dictHasKey v "matches")
  | Option.none => false

/-- The text the source extracts from one well-formed hit: the `text`
entry of the fields of the hit, when that entry is a string. -/
def specHitText (h : PyVal) : Option String :=
  match hitFieldsVal h with
  | .dict fkvs =>
    match alookup fkvs "text" with
    | some (.str t) => some t
    | _ => Option.none
  | _ => Option.none

/-- Modelled from the spec (testable property for the vector search): the
expected `matches` list — one entry per hit whose text field is a string,
entries with the text absent or not a string skipped, in the backend hit
order with no re-sorting. -/
def specExpectedMatches (hits : List PyVal) : List String :=
  hits.filterMap specHitText

/-- A hit is well formed when the fields value the source reads for it is
a dict, so the loop body of src/server.py lines 202-206 cannot raise. -/
def hitWellFormed (h : PyVal) : Bool :=
  match hitFieldsVal h with
  | .dict _ => true
  | _ => false

/-- Modelled from the spec (section 3, BackendHit invariant): every hit of
`raw.result.hits` in a returned raw structure carries only allow-listed
field names.  This definition follows the spec words and is compared with
the raw structure the source actually returns. -/
def specHitFieldsAllowed (raw : PyVal) : Bool :=
  match dictGetKey raw "result" with
  | some (.dict inner) =>
    match alookup inner "hits" with
    | some (.list hits) =>
      hits.all fun h =>
        match h with
        | .dict kvs =>
          match alookup kvs "fields" with
          | some (.dict fkvs) => fkvs.all fun kv => pineconeRequestedFields.contains kv.1
          | _ => true
        | _ => true
    | _ => true
  | _ => true


/-! ## Helper lemmas -/

lemma extract_api_key_primary (hs : List (String × String)) (v : String)
    (hlk : pyOrStr (slookup hs "x-platform-api-key")
      (slookup hs "X-Platform-API-Key") = some v)
    (hne : v ≠ "") :
    extract_api_key hs = some (pystrip v) := by
  have hns : hs.isEmpty = false := by
    cases hs with
    | nil => simp [slookup, pyOrStr] at hlk
    | cons a t => rfl
  unfold extract_api_key
  rw [hns, hlk]
  simp [hne]

lemma hitText_of_wf (h : PyVal) (hwf : hitWellFormed h = true) :
    hitText h = .ok (specHitText h) := by
  unfold hitWellFormed at hwf
  cases hfv : hitFieldsVal h <;> rw [hfv] at hwf <;> try simp at hwf
  rename_i fkvs
  have h1 : hitText h = match alookup fkvs "text" with
      | some (.str t) => .ok (some t)
      | _ => .ok Option.none := by
    unfold hitText
    rw [hfv]
  have h2 : specHitText h = match alookup fkvs "text" with
      | some (.str t) => some t
      | _ => Option.none := by
    unfold specHitText
    rw [hfv]
  rw [h1, h2]
  cases halk : alookup fkvs "text" with
  | none => rfl
  | some w => cases w <;> rfl

lemma collectMatches_of_wf (hits : List PyVal)
    (hwf : hits.all hitWellFormed = true) :
    collectMatches hits = (hits.filterMap specHitText, false) := by
  induction hits with
  | nil => rfl
  | cons h rest ih =>
    rw [List.all_cons, Bool.and_eq_true] at hwf
    have h1 := hitText_of_wf h hwf.1
    have h2 := ih hwf.2
    cases hsp : specHitText h with
    | none =>
      rw [hsp] at h1
      unfold collectMatches
      rw [h1, List.filterMap_cons, hsp, h2]
    | some t =>
      rw [hsp] at h1
      unfold collectMatches
      rw [h1, List.filterMap_cons, hsp, h2]

/-! ## Claim theorems -/

/-- C7 is false as stated: a metadata mapping that contains the dedicated
API-key header with the empty-string value does NOT resolve to that value
trimmed — the code treats the empty value as falsy and falls through to
the bearer header, returning the bearer token instead. -/
theorem C7_counterexample :
    extract_api_key [("x-platform-api-key", ""), ("authorization", "Bearer tok")]
      = some "tok" ∧
    some "tok" ≠ some (pystrip "") := by
  constructor
  · decide
  · decide

/-- C7 (amended): for every metadata mapping in which the dedicated
API-key header probe (key "x-platform-api-key", else key
"X-Platform-API-Key") yields a NON-EMPTY value, credential resolution
returns that value trimmed of surrounding whitespace, regardless of
whether a bearer-authorization header is also present. -/
theorem C7_amended (hs : List (String × String)) (v : String)
    (hlk : pyOrStr (slookup hs "x-platform-api-key")
      (slookup hs "X-Platform-API-Key") = some v)
    (hne : v ≠ "") :
    extract_api_key hs = some (pystrip v) :=
  extract_api_key_primary hs v hlk hne

/-- C7 witness: a concrete metadata mapping holding both the dedicated
header (non-empty, padded with spaces) and a bearer header resolves to
the dedicated value stripped. -/
theorem C7_witness :
    extract_api_key [("x-platform-api-key", " key "), ("authorization", "Bearer other")]
      = some (pystrip " key ") :=
  C7_amended [("x-platform-api-key", " key "), ("authorization", "Bearer other")]
    " key " (by decide) (by decide)

/-- C10: precedence between the two credential headers is decided by
non-empty value, not by header presence.  First part: whenever the
dedicated-header probe yields no value or the empty value, resolution
falls through to the bearer branch (which also covers absence).  Second
part: a dedicated header value that is non-empty but trims to nothing is
taken and resolves to the empty-string credential. -/
theorem C10_precedence_by_truthiness :
    (∀ hs : List (String × String),
      (pyOrStr (slookup hs "x-platform-api-key")
          (slookup hs "X-Platform-API-Key") = Option.none ∨
       pyOrStr (slookup hs "x-platform-api-key")
          (slookup hs "X-Platform-API-Key") = some "") →
      extract_api_key hs = bearerFallback hs) ∧
    (∀ hs : List (String × String), ∀ v : String,
      slookup hs "x-platform-api-key" = some v → v ≠ "" → pystrip v = "" →
      extract_api_key hs = some "") := by
  constructor
  · intro hs hcomb
    cases hs with
    | nil => rfl
    | cons a t =>
      unfold extract_api_key
      rcases hcomb with hcb | hcb <;> rw [hcb] <;> rfl
  · intro hs v hlk hne htr
    have hcomb : pyOrStr (slookup hs "x-platform-api-key")
        (slookup hs "X-Platform-API-Key") = some v := by
      rw [hlk]
      simp [pyOrStr, hne]
    rw [extract_api_key_primary hs v hcomb hne, htr]

/-- C10 witness: with an empty dedicated header the bearer token is used,
and a whitespace-only dedicated header resolves to the empty credential. -/
theorem C10_witness :
    extract_api_key [("x-platform-api-key", ""), ("authorization", "Bearer tok2")]
      = bearerFallback [("x-platform-api-key", ""), ("authorization", "Bearer tok2")] ∧
    extract_api_key [("x-platform-api-key", "  ")] = some "" :=
  ⟨C10_precedence_by_truthiness.1 _ (Or.inl (by decide)),
   C10_precedence_by_truthiness.2 _ "  " (by decide) (by decide) (by decide)⟩

/-- C1 is false as stated: invoking the web-search adapter with the
backend credential unset raises a ValueError to the caller instead of
returning a success=false NormalizedResult — an exception crosses the
gateway boundary. -/
theorem C1_counterexample :
    research_company_with_tavily Option.none "Acme" "acme.com"
      (fun _ => .ok ⟨200, .dict []⟩) =
    .error (.valueError "Missing TAVILY_API_KEY environment variable on the server.") := rfl

/-- C1 (amended): only the backend call of the vector-search adapter is
guarded.  When configuration and arguments pass validation and the
SDK import succeeds, an exception raised by the backend call is captured and
returned as the success=false failure dict; validation failures,
missing configuration, SDK-import failure, and every failure path of the
web-search adapter are raised to the caller instead of being returned. -/
theorem C1_amended (env : PineconeEnv) (UserId query : String)
    (backend : String → PineconeSearchKwargs → Except PyErr PyVal) (e : PyErr)
    (hkey : envTruthy env.api_key = true)
    (hidx : envTruthy env.index_name = true)
    (hu : pystrip UserId ≠ "") (hq : pystrip query ≠ "")
    (hb : backend (pystrip UserId) (pineconeSearchKwargs query) = .error e) :
    pinecone_search env true UserId query backend = .ok (pineconeErrorDict e) := by
  have hu0 : ¬ (UserId = "" ∨ pystrip UserId = "") := by
    rintro (h0 | h0)
    · exact hu (by rw [h0]; decide)
    · exact hu h0
  have hq0 : ¬ (query = "" ∨ pystrip query = "") := by
    rintro (h0 | h0)
    · exact hq (by rw [h0]; decide)
    · exact hq h0
  unfold pinecone_search
  rw [hkey, hidx]
  simp only [Bool.true_eq_false, if_false, if_neg hu0, if_neg hq0, hb]

/-- C1 witness: with valid configuration and arguments, a backend raise
becomes the failure dict. -/
theorem C1_witness :
    pinecone_search ⟨some "pk", some "idx", Option.none⟩ true "user-1" "q"
      (fun _ _ => .error (.runtimeError "boom")) =
    .ok (pineconeErrorDict (.runtimeError "boom")) :=
  C1_amended ⟨some "pk", some "idx", Option.none⟩ "user-1" "q"
    (fun _ _ => .error (.runtimeError "boom")) (.runtimeError "boom")
    (by decide) (by decide) (by decide) (by decide) rfl

/-- C2 is false as stated: the web-search tool returns the backend JSON
body verbatim, so a successful call yields a value with no success field
at all — not the NormalizedResult shape. -/
theorem C2_counterexample :
    research_company_with_tavily (some "tk") "Acme" "acme.com"
      (fun _ => .ok ⟨200, .dict [("results", .list [])]⟩) =
    .ok (.dict [("results", .list [])]) ∧
    specNormalizedInvariant (.dict [("results", .list [])]) = false := by
  constructor
  · rfl
  · rfl

/-- C2 (amended): scoped to the vector-search tool — every value RETURNED
(rather than raised) by pinecone_search satisfies the NormalizedResult
invariant: success == false iff an error field is present, and matches is
present whenever success == true.  The web-search tool returns the
backend body verbatim with no such envelope. -/
theorem C2_amended (env : PineconeEnv) (sdk : Bool) (UserId query : String)
    (backend : String → PineconeSearchKwargs → Except PyErr PyVal) (v : PyVal)
    (h : pinecone_search env sdk UserId query backend = .ok v) :
    specNormalizedInvariant v = true := by
  unfold pinecone_search at h
  split at h
  · exact Except.noConfusion h
  split at h
  · exact Except.noConfusion h
  split at h
  · exact Except.noConfusion h
  split at h
  · exact Except.noConfusion h
  split at h
  · exact Except.noConfusion h
  split at h
  · injection h with h2
    rw [← h2]
    rfl
  · injection h with h2
    rw [← h2]
    rfl

/-- C2 witness: a concrete successful vector-search call satisfies the
NormalizedResult invariant. -/
theorem C2_witness :
    specNormalizedInvariant (pineconeSuccessDict (.dict [])) = true :=
  C2_amended ⟨some "pk", some "idx", Option.none⟩ true "u" "q"
    (fun _ _ => .ok (.dict [])) (pineconeSuccessDict (.dict [])) rfl

/-- C3: the normalization step is total — for EVERY raw backend result,
the guarded call returns the success dict (no raise escapes), and on an
empty mapping, a None-valued nesting, a non-dict result, and a hit that
lacks a fields member the matches list is empty, while a hit list with a
recoverable text still yields that text. -/
theorem C3_normalize_total :
    (∀ result : PyVal,
      pinecone_search ⟨some "pk", some "idx", Option.none⟩ true "u" "q"
        (fun _ _ => .ok result) = .ok (pineconeSuccessDict result)) ∧
    pineconeNormalize (.dict []) = [] ∧
    pineconeNormalize PyVal.none = [] ∧
    pineconeNormalize (.dict [("result", PyVal.none)]) = [] ∧
    pineconeNormalize (.dict [("result", .dict [("hits", .list [.dict []])])]) = [] ∧
    pineconeNormalize (.dict [("result", .dict [("hits", .list
      [.dict [], .dict [("fields", .dict [("text", .str "kept")])]])])]) = ["kept"] := by
  refine ⟨fun result => rfl, rfl, rfl, rfl, rfl, rfl⟩

/-- C4 is false as stated: the returned value embeds the raw backend
response verbatim, so a backend hit carrying a field outside the
allow-list (here "secret") reaches the caller unpruned. -/
theorem C4_counterexample :
    pinecone_search ⟨some "pk", some "idx", Option.none⟩ true "u4" "q4"
      (fun _ _ => .ok (.dict [("result", .dict [("hits", .list
        [.dict [("fields", .dict [("text", .str "a"), ("secret", .str "s")])]])])])) =
    .ok (pineconeSuccessDict (.dict [("result", .dict [("hits", .list
      [.dict [("fields", .dict [("text", .str "a"), ("secret", .str "s")])]])])])) ∧
    dictGetKey (pineconeSuccessDict (.dict [("result", .dict [("hits", .list
      [.dict [("fields", .dict [("text", .str "a"), ("secret", .str "s")])]])])])) "raw" =
      some (.dict [("result", .dict [("hits", .list
        [.dict [("fields", .dict [("text", .str "a"), ("secret", .str "s")])]])])]) ∧
    specHitFieldsAllowed (.dict [("result", .dict [("hits", .list
      [.dict [("fields", .dict [("text", .str "a"), ("secret", .str "s")])]])])]) = false := by
  refine ⟨rfl, rfl, rfl⟩

/-- C4 (amended): the adapter requests only the fixed allow-listed field
set from the backend (the search kwargs carry exactly that list), but the
response is not pruned — the returned value embeds the raw backend
response verbatim under the raw key, extra fields included. -/
theorem C4_amended :
    (∀ query : String, (pineconeSearchKwargs query).fields =
      ["text", "Tag", "Type", "RecordId", "UserId", "TimeStamp"]) ∧
    (∀ result : PyVal,
      pinecone_search ⟨some "pk4", some "idx4", Option.none⟩ true "u4" "q4"
        (fun _ _ => .ok result) = .ok (pineconeSuccessDict result) ∧
      dictGetKey (pineconeSuccessDict result) "raw" = some result) := by
  refine ⟨fun query => rfl, fun result => ⟨rfl, rfl⟩⟩

/-- C5 is false as stated: invoking the vector-search tool with an empty
namespace raises a ValueError to the caller — it does not return a
success=false result with a validation error kind.  (No backend call is
made; the raise happens first, whatever the backend would do.) -/
theorem C5_counterexample :
    pinecone_search ⟨some "pk", some "idx", Option.none⟩ true "" "pricing"
      (fun _ _ => .ok (.dict [])) =
    .error (.valueError "UserId is required.") := rfl

/-- C5 (amended): with configuration present, an empty or blank namespace
identifier makes pinecone_search raise ValueError "UserId is required."
before any backend call — the outcome is the same for every backend
function, so no backend call is made; no success=false NormalizedResult
is returned. -/
theorem C5_amended (env : PineconeEnv) (sdk : Bool) (UserId query : String)
    (backend : String → PineconeSearchKwargs → Except PyErr PyVal)
    (hkey : envTruthy env.api_key = true)
    (hidx : envTruthy env.index_name = true)
    (hu : pystrip UserId = "") :
    pinecone_search env sdk UserId query backend =
      .error (.valueError "UserId is required.") := by
  unfold pinecone_search
  rw [hkey, hidx]
  simp only [Bool.true_eq_false, if_false]
  rw [if_pos (Or.inr hu)]

/-- C5 witness: a blank (whitespace-only) namespace triggers the
validation raise with a concrete environment and backend. -/
theorem C5_witness :
    pinecone_search ⟨some "pk", some "idx", Option.none⟩ true " " "pricing"
      (fun _ _ => .ok (.dict [])) =
    .error (.valueError "UserId is required.") :=
  C5_amended ⟨some "pk", some "idx", Option.none⟩ true " " "pricing"
    (fun _ _ => .ok (.dict [])) (by decide) (by decide) (by decide)

/-- C6 is false as stated: a hit whose fields member is present but not a
mapping is not merely skipped — the raised lookup aborts the whole loop,
so a later hit with a perfectly good text is dropped too.  The spec-side
expectation for this hit list is ["t2"]; the code produces []. -/
theorem C6_counterexample :
    specExpectedMatches
      [.dict [("fields", .int 5)],
       .dict [("fields", .dict [("text", .str "t2")])]] = ["t2"] ∧
    pineconeNormalize (.dict [("result", .dict [("hits", .list
      [.dict [("fields", .int 5)],
       .dict [("fields", .dict [("text", .str "t2")])]])])]) = [] := by
  refine ⟨rfl, rfl⟩

/-- C6 (amended): for every backend response whose extracted hit list
consists of hits whose fields member is a mapping (or absent, or carried
by a non-mapping hit — every case where the per-hit lookup cannot raise),
the returned matches are exactly one entry per hit whose text field is a
string, entries without a string text skipped, in the backend hit order
with no re-sorting, and success is true.  A hit whose fields value is
present but not a mapping instead aborts the loop for the remaining
hits. -/
theorem C6_amended (result : PyVal) (hits : List PyVal)
    (hh : pineconeHits result = .ok (.list hits))
    (hwf : hits.all hitWellFormed = true) :
    pinecone_search ⟨some "pk", some "idx", Option.none⟩ true "user-42" "pricing"
      (fun _ _ => .ok result) =
    .ok (.dict [("success", .bool true),
      ("matches", .list ((specExpectedMatches hits).map .str)),
      ("raw", result)]) := by
  have hnorm : pineconeNormalize result = specExpectedMatches hits := by
    unfold pineconeNormalize pineconeTryNormalize
    rw [hh]
    simp only [pyIter]
    rw [collectMatches_of_wf hits hwf]
    rfl
  have hrun : pinecone_search ⟨some "pk", some "idx", Option.none⟩ true "user-42"
      "pricing" (fun _ _ => .ok result) = .ok (pineconeSuccessDict result) := rfl
  rw [hrun]
  unfold pineconeSuccessDict
  rw [hnorm]

/-- C6 witness: three hits with text fields set yield exactly three
matches in the backend order, with success true. -/
theorem C6_witness :
    pinecone_search ⟨some "pk", some "idx", Option.none⟩ true "user-42" "pricing"
      (fun _ _ => .ok (.dict [("result", .dict [("hits", .list
        [.dict [("fields", .dict [("text", .str "first")])],
         .dict [("fields", .dict [("text", .str "second")])],
         .dict [("fields", .dict [("text", .str "third")])]])])])) =
    .ok (.dict [("success", .bool true),
      ("matches", .list [.str "first", .str "second", .str "third"]),
      ("raw", .dict [("result", .dict [("hits", .list
        [.dict [("fields", .dict [("text", .str "first")])],
         .dict [("fields", .dict [("text", .str "second")])],
         .dict [("fields", .dict [("text", .str "third")])]])])])]) :=
  C6_amended
    (.dict [("result", .dict [("hits", .list
      [.dict [("fields", .dict [("text", .str "first")])],
       .dict [("fields", .dict [("text", .str "second")])],
       .dict [("fields", .dict [("text", .str "third")])]])])])
    [.dict [("fields", .dict [("text", .str "first")])],
     .dict [("fields", .dict [("text", .str "second")])],
     .dict [("fields", .dict [("text", .str "third")])]]
    rfl rfl

/-- C8 is false as stated: when the backend response defeats the
normalization (here a result whose nested result member is a string, so
the hit lookup raises), the call does NOT report a serialization error
and does NOT degrade to an empty raw — it silently returns success=true,
no error field, and the full raw response. -/
theorem C8_counterexample :
    pineconeNormalizeRaised (.dict [("result", .str "boom")]) = true ∧
    pinecone_search ⟨some "pk", some "idx", Option.none⟩ true "u8" "q8"
      (fun _ _ => .ok (.dict [("result", .str "boom")])) =
    .ok (pineconeSuccessDict (.dict [("result", .str "boom")])) ∧
    dictHasKey (pineconeSuccessDict (.dict [("result", .str "boom")])) "error" = false ∧
    dictGetKey (pineconeSuccessDict (.dict [("result", .str "boom")])) "raw" =
      some (.dict [("result", .str "boom")]) := by
  refine ⟨rfl, rfl, rfl, rfl⟩

/-- C8 (amended): normalization failures are silently swallowed — for
every backend response the call returns success=true with no error field
and the FULL raw response (never an emptied raw and never a
serialization-error report), while matches keeps whatever was recovered
before the failure: in the concrete run below the text before the
malformed hit is kept and the text after it is dropped, and the raised
flag records that the normalization block did raise. -/
theorem C8_amended :
    (∀ result : PyVal,
      pinecone_search ⟨some "pk8", some "idx8", Option.none⟩ true "u8" "q8"
        (fun _ _ => .ok result) = .ok (pineconeSuccessDict result) ∧
      dictHasKey (pineconeSuccessDict result) "error" = false ∧
      dictGetKey (pineconeSuccessDict result) "raw" = some result) ∧
    pineconeNormalize (.dict [("result", .dict [("hits", .list
      [.dict [("fields", .dict [("text", .str "kept")])],
       .dict [("fields", .int 0)],
       .dict [("fields", .dict [("text", .str "dropped")])]])])]) = ["kept"] ∧
    pineconeNormalizeRaised (.dict [("result", .dict [("hits", .list
      [.dict [("fields", .dict [("text", .str "kept")])],
       .dict [("fields", .int 0)],
       .dict [("fields", .dict [("text", .str "dropped")])]])])]) = true := by
  refine ⟨fun result => ⟨rfl, rfl, rfl⟩, rfl, rfl⟩

/-- C9: the web-search adapter builds a single free-text query string
from the entity name and the target site, restricts results to that site
via include_domains, requests at most 5 results, requests advanced search
depth, requests an included short answer, and does not request full raw
page content. -/
theorem C9_tavily_request_shape (apiKey company site : String) :
    tavilyPayload apiKey company site =
      { api_key := apiKey
        query := "Products, Services, Team, News, Key customers, FAQ, Pricing of "
          ++ company ++ " - site:" ++ site
        max_results := 5
        search_depth := "advanced"
        include_domains := [site]
        include_answer := true
        include_raw_content := false } := rfl
